import Mathlib

/-!
Verification development for the Weston client toolkit's asynchronous core
(`src/clients/window.c`) and the compositor-side primary-selection extension
(`src/src/primary-selection.c`, second variant in `src/unnamed/part_000`).
Each section embeds the relevant C functions as Lean definitions and proves
the stated properties about them.
-/

namespace Weston

/-! ## Task scheduler: `display_defer` and the drain pass of `display_run`

Tasks are identified by natural numbers.  `spawn t` lists the tasks that task
`t` itself defers while it runs, in the order of its `display_defer` calls.
`wl_list_insert(&display->deferred_list, &task->link)` places the new task at
the head of the list, and the drain loop of `display_run` removes
`display->deferred_list.prev`, i.e. the tail, so the stored list is
newest-first and the pop order is oldest-first. -/

/-- `display_defer` (window.c:6420): `wl_list_insert` at the head of
`deferred_list`. -/
def display_defer (queue : List Nat) (t : Nat) : List Nat := t :: queue

/-- The drain pass of `display_run` (window.c:6451-6456): while the deferred
list is nonempty, remove `deferred_list.prev` (the tail of the newest-first
list) and run it; the running task may defer further tasks, which are
inserted at the head and hence popped after everything already queued.  The C
loop is unbounded, so the model takes fuel and returns `none` when the fuel
runs out; the result is the trace of task runs in execution order. -/
def drainDeferred (spawn : Nat → List Nat) : Nat → List Nat → Option (List Nat)
  | _, [] => some []
  | 0, _ :: _ => none
  | fuel+1, t :: q =>
    match (t :: q).getLast? with
    | none => some []
    | some last =>
      (drainDeferred spawn fuel
        ((spawn last).foldl display_defer (t :: q).dropLast)).map
        (fun tr => last :: tr)

/-- First-in-first-out reference drain: the queue is given in deferral order
(earliest deferral first); the head runs first and the tasks it defers join
the back of the same pass's queue. -/
def fifoDrain (spawn : Nat → List Nat) : Nat → List Nat → Option (List Nat)
  | _, [] => some []
  | 0, _ :: _ => none
  | fuel+1, t :: q =>
    (fifoDrain spawn fuel (q ++ spawn t)).map (fun tr => t :: tr)

/-- Events of one iteration of `display_run`'s `while (1)` body, in program
order: deferred-task runs, then `wl_display_dispatch_pending`, then
`wl_display_flush`, then `epoll_wait`. -/
inductive LoopEv where
  | runTask (t : Nat)
  | dispatchPending
  | flushOutbound
  | epollWait
deriving DecidableEq, Repr

/-- One iteration of `display_run` (window.c:6450-6480): drain the deferred
list completely, then dispatch pending protocol events, flush outbound
writes, and only then block in `epoll_wait`. -/
def display_run_iteration (spawn : Nat → List Nat) (fuel : Nat) (q : List Nat) :
    Option (List LoopEv) :=
  (drainDeferred spawn fuel q).map (fun tr =>
    tr.map LoopEv.runTask ++
      [LoopEv.dispatchPending, LoopEv.flushOutbound, LoopEv.epollWait])

theorem foldl_defer_reverse (l init : List Nat) :
    (l.foldl display_defer init).reverse = init.reverse ++ l := by
  induction l generalizing init with
  | nil => simp
  | cons a l ih =>
    simp [List.foldl_cons, display_defer, ih]

theorem fifoDrain_eq_drainDeferred (spawn : Nat → List Nat) (fuel : Nat)
    (l : List Nat) :
    fifoDrain spawn fuel l = drainDeferred spawn fuel l.reverse := by
  induction fuel generalizing l with
  | zero =>
    cases l with
    | nil => rfl
    | cons a l =>
      have hne : (a :: l).reverse ≠ [] := by simp
      rcases h : (a :: l).reverse with _ | ⟨b, m⟩
      · exact absurd h hne
      · rfl
  | succ fuel ih =>
    cases l with
    | nil => rfl
    | cons t q =>
      have hrev : (t :: q).reverse = q.reverse ++ [t] := by simp
      have hfold : (spawn t).foldl display_defer q.reverse = (q ++ spawn t).reverse := by
        have := foldl_defer_reverse (spawn t) q.reverse
        have h2 : ((spawn t).foldl display_defer q.reverse).reverse.reverse
            = (q ++ spawn t).reverse := by
          rw [this]; simp
        simpa using h2
      rcases hq : q.reverse with _ | ⟨b, m⟩
      · -- q = [], so the reversed queue is [t]
        have hqnil : q = [] := by simpa using congrArg List.reverse hq
        subst hqnil
        simp only [List.reverse_cons, List.reverse_nil, List.nil_append]
        show (fifoDrain spawn fuel ([] ++ spawn t)).map (fun tr => t :: tr)
            = drainDeferred spawn (fuel+1) [t]
        rw [ih]
        simp only [drainDeferred, List.getLast?_singleton, List.dropLast_single]
        have : (spawn t).foldl display_defer [] = ([] ++ spawn t).reverse := by
          simpa using hfold
        rw [this]
      · -- q is nonempty; (t :: q).reverse = b :: (m ++ [t])
        show (fifoDrain spawn fuel (q ++ spawn t)).map (fun tr => t :: tr)
            = drainDeferred spawn (fuel+1) (t :: q).reverse
        rw [ih]
        have hrev2 : (t :: q).reverse = b :: (m ++ [t]) := by
          rw [hrev, hq]; simp
        rw [hrev2]
        have hlast : (b :: (m ++ [t])).getLast? = some t := by
          have : b :: (m ++ [t]) = (b :: m) ++ [t] := by simp
          rw [this, List.getLast?_concat]
        have hdrop : (b :: (m ++ [t])).dropLast = b :: m := by
          have : b :: (m ++ [t]) = (b :: m) ++ [t] := by simp
          rw [this, List.dropLast_concat]
        simp only [drainDeferred, hlast, hdrop]
        have hbm : b :: m = q.reverse := hq.symm
        rw [hbm, hfold]

theorem drainDeferred_eq_fifo (spawn : Nat → List Nat) (fuel : Nat)
    (q : List Nat) :
    drainDeferred spawn fuel q = fifoDrain spawn fuel q.reverse := by
  have := fifoDrain_eq_drainDeferred spawn fuel q.reverse
  simpa using this.symm

theorem fifoDrain_count (spawn : Nat → List Nat) (fuel : Nat)
    (q tr : List Nat) (h : fifoDrain spawn fuel q = some tr) (t : Nat) :
    tr.count t = q.count t + (tr.map (fun s => (spawn s).count t)).sum := by
  induction fuel generalizing q tr with
  | zero =>
    cases q with
    | nil =>
      simp only [fifoDrain, Option.some.injEq] at h
      subst h; simp
    | cons a q => simp [fifoDrain] at h
  | succ fuel ih =>
    cases q with
    | nil =>
      simp only [fifoDrain, Option.some.injEq] at h
      subst h; simp
    | cons a q =>
      simp only [fifoDrain, Option.map_eq_some'] at h
      obtain ⟨tr0, h0, htr⟩ := h
      subst htr
      have hih := ih (q ++ spawn a) tr0 h0
      simp only [List.count_append] at hih
      simp only [List.count_cons, List.map_cons, List.sum_cons]
      omega

/-- C1: one iteration of `display_run` runs every deferred task exactly once,
in FIFO order of deferral (tasks deferred during the drain are appended and
run within the same pass), before the iteration reaches `epoll_wait`.
Formally: whenever the iteration's drain terminates, its task trace is the
FIFO drain of the queue taken in deferral order, every run precedes the
dispatch/flush/wait steps, and each task id is run exactly as many times as
it was deferred (initially plus during the drain). -/
theorem display_run_defer_fifo_exactly_once (spawn : Nat → List Nat)
    (fuel : Nat) (q : List Nat) (evs : List LoopEv)
    (h : display_run_iteration spawn fuel q = some evs) :
    ∃ tr : List Nat,
      fifoDrain spawn fuel q.reverse = some tr ∧
      evs = tr.map LoopEv.runTask ++
        [LoopEv.dispatchPending, LoopEv.flushOutbound, LoopEv.epollWait] ∧
      (∀ t : Nat,
        tr.count t = q.reverse.count t +
          (tr.map (fun s => (spawn s).count t)).sum) := by
  simp only [display_run_iteration, Option.map_eq_some'] at h
  obtain ⟨tr, hdrain, hevs⟩ := h
  refine ⟨tr, ?_, hevs.symm, ?_⟩
  · rw [← drainDeferred_eq_fifo]; exact hdrain
  · intro t
    have hfifo : fifoDrain spawn fuel q.reverse = some tr := by
      rw [← drainDeferred_eq_fifo]; exact hdrain
    exact fifoDrain_count spawn fuel q.reverse tr hfifo t

/-- Example task system: task 0 defers tasks 2 and 3 while it runs; nothing
else defers anything. -/
def spawnEx : Nat → List Nat := fun t => if t = 0 then [2, 3] else []

theorem display_run_defer_fifo_exactly_once_witness :
    ∃ tr : List Nat,
      fifoDrain spawnEx 6 ([1, 0] : List Nat).reverse = some tr ∧
      ([LoopEv.runTask 0, LoopEv.runTask 1, LoopEv.runTask 2, LoopEv.runTask 3,
        LoopEv.dispatchPending, LoopEv.flushOutbound, LoopEv.epollWait])
        = tr.map LoopEv.runTask ++
          [LoopEv.dispatchPending, LoopEv.flushOutbound, LoopEv.epollWait] ∧
      (∀ t : Nat,
        tr.count t = ([1, 0] : List Nat).reverse.count t +
          (tr.map (fun s => (spawnEx s).count t)).sum) :=
  display_run_defer_fifo_exactly_once spawnEx 6 [1, 0]
    [LoopEv.runTask 0, LoopEv.runTask 1, LoopEv.runTask 2, LoopEv.runTask 3,
     LoopEv.dispatchPending, LoopEv.flushOutbound, LoopEv.epollWait]
    (by decide)

/-! ## Redraw scheduler: `surface_redraw`, `frame_callback`, `idle_redraw`,
`undo_resize` (window.c)

The model tracks the fields the scheduler reads and writes.  A `Surface`
carries `redraw_needed`, `frame_cb` (true while a frame callback — the
presentation acknowledgment — is outstanding) and its current allocation.
`Window.commits` is a ghost counter of main-surface commits: `surface_redraw`
requests a new frame callback and paints exactly when the subsequent
`window_flush`/`surface_flush` will commit a new buffer, since
`surface->cairo_surface` is non-NULL only on that path.  Drawable acquisition
(`widget_get_cairo_surface`) is an external collaborator and enters as a
boolean oracle. -/

structure Rect where
  width : Int
  height : Int
deriving DecidableEq, Repr

structure Surface where
  redraw_needed : Bool
  frame_cb : Bool
  allocation : Rect
deriving DecidableEq, Repr

structure Window where
  main : Surface
  subs : List Surface
  redraw_needed : Bool
  resize_needed : Bool
  redraw_task_scheduled : Bool
  pending_allocation : Rect
  server_allocation : Rect
  saved_allocation : Rect
  fullscreen : Bool
  maximized : Bool
  commits : Nat
  fatal : Bool
deriving DecidableEq, Repr

/-- `surface_redraw` (window.c:4363-4397).  Returns the new surface state,
the C return value (0 or -1) and whether a commit was produced.  The guards
in source order: nothing to do; frame callback outstanding and no window-wide
redraw (throttle, return 0); the forced path destroys the pending callback
when `window->redraw_needed` is set; drawable acquisition failure returns -1
with the surface fields untouched; otherwise a new frame callback is
requested, `redraw_needed` cleared and the widget repainted. -/
def surface_redraw (window_redraw_needed acquire_ok : Bool) (s : Surface) :
    Surface × Int × Bool :=
  if ¬window_redraw_needed ∧ ¬s.redraw_needed then (s, 0, false)
  else if s.frame_cb ∧ ¬window_redraw_needed then (s, 0, false)
  else if ¬acquire_ok then (s, -1, false)
  else ({ s with redraw_needed := false, frame_cb := true }, 0, true)

/-- `window_schedule_redraw_task` (window.c:4451-4459): defer `idle_redraw`
once; the deferred-queue membership is the `redraw_task_scheduled` flag. -/
def window_schedule_redraw_task (w : Window) : Window :=
  if ¬w.redraw_task_scheduled then { w with redraw_task_scheduled := true } else w

/-- `window_schedule_redraw` (window.c:4461-4472): mark every surface in
`subsurface_list` (the main surface is in the list too) redraw-needed, then
schedule the redraw task. -/
def window_schedule_redraw (w : Window) : Window :=
  window_schedule_redraw_task
    { w with
      main := { w.main with redraw_needed := true },
      subs := w.subs.map (fun s => { s with redraw_needed := true }) }

/-- `widget_schedule_redraw` (window.c:2058-2062) on the main surface's
widget: mark that one surface and schedule the redraw task. -/
def widget_schedule_redraw_main (w : Window) : Window :=
  window_schedule_redraw_task { w with main := { w.main with redraw_needed := true } }

/-- `frame_callback` (window.c:4341-4357): the presentation acknowledgment
for the main surface; clears `frame_cb` and reschedules the redraw task if a
redraw was requested while waiting. -/
def frame_callback (w : Window) : Window :=
  let w1 : Window := { w with main := { w.main with frame_cb := false } }
  if w1.main.redraw_needed ∨ w1.redraw_needed then window_schedule_redraw_task w1 else w1

/-- `window_do_resize` (window.c:4041-4069): apply `pending_allocation` to the
main widget; `surface_resize` schedules a window redraw when the size
changed; sub-surface allocations are produced by the application's resize
handler (external, out of scope); finally remember `saved_allocation` unless
fullscreen or maximized. -/
def window_do_resize (w : Window) : Window :=
  let changed := w.main.allocation ≠ w.pending_allocation
  let w1 : Window := { w with main := { w.main with allocation := w.pending_allocation } }
  let w2 := if changed then window_schedule_redraw w1 else w1
  if ¬w2.fullscreen ∧ ¬w2.maximized then
    { w2 with saved_allocation := w2.pending_allocation }
  else w2

/-- `idle_resize` (window.c:4071-4084): clear `resize_needed`, raise the
window-wide `redraw_needed` flag and perform the resize. -/
def idle_resize (w : Window) : Window :=
  window_do_resize { w with resize_needed := false, redraw_needed := true }

/-- `undo_resize` (window.c:4086-4107): revert `pending_allocation` to the
main surface's `server_allocation` (the last size the server acknowledged via
`surface_flush`), re-apply it, and exit fatally if even that size is 0x0. -/
def undo_resize (w : Window) : Window :=
  let w1 : Window := { w with pending_allocation := w.server_allocation }
  let w2 := window_do_resize w1
  if w2.pending_allocation.width = 0 ∧ w2.pending_allocation.height = 0 then
    { w2 with fatal := true }
  else w2

/-- `idle_redraw` (window.c:4399-4449).  `acq_main` is the drawable
acquisition oracle for the main surface, `acq_subs i` for the i-th
sub-surface.  Steps in source order: clear the task flag; early return when a
resize is pending but the main surface still awaits its acknowledgment;
perform the pending resize; redraw the main surface, and only on success the
sub-surfaces; clear `window->redraw_needed`; `window_flush` records the
committed size as the server allocation; undo the resize if it was performed
and the main redraw failed. -/
def idle_redraw_body (acq_main : Bool) (acq_subs : Nat → Bool) (resized : Bool)
    (w2 : Window) : Window :=
  let r := surface_redraw w2.redraw_needed acq_main w2.main
  let failed : Bool := decide (r.2.1 < 0)
  let committed := r.2.2
  let w3 : Window := { w2 with
    main := r.1,
    commits := w2.commits + (if committed then 1 else 0) }
  let newSubs := w3.subs.mapIdx (fun i s => (surface_redraw w3.redraw_needed (acq_subs i) s).1)
  let w4 := if failed then w3 else { w3 with subs := newSubs }
  let w5 : Window := { w4 with redraw_needed := false }
  let w6 := if committed then { w5 with server_allocation := w5.main.allocation } else w5
  if resized ∧ failed then undo_resize w6 else w6

def idle_redraw (acq_main : Bool) (acq_subs : Nat → Bool) (w0 : Window) : Window :=
  let w1 : Window := { w0 with redraw_task_scheduled := false }
  if w1.resize_needed ∧ w1.main.frame_cb then w1
  else
    idle_redraw_body acq_main acq_subs w1.resize_needed
      (if w1.resize_needed then idle_resize w1 else w1)

/-- A quiescent 200x200 window with no sub-surfaces. -/
def wIdle : Window :=
  { main := { redraw_needed := false, frame_cb := false, allocation := ⟨200, 200⟩ },
    subs := [],
    redraw_needed := false, resize_needed := false, redraw_task_scheduled := false,
    pending_allocation := ⟨200, 200⟩, server_allocation := ⟨200, 200⟩,
    saved_allocation := ⟨200, 200⟩,
    fullscreen := false, maximized := false, commits := 0, fatal := false }

/-- The C2 scenario: request a redraw, run the redraw task (first commit, no
acknowledgment yet), request a second redraw and run the task again. -/
def redrawTwiceNoAck : Window :=
  idle_redraw true (fun _ => true)
    (widget_schedule_redraw_main
      (idle_redraw true (fun _ => true) (widget_schedule_redraw_main wIdle)))

/-- The C2 scenario continued: the acknowledgment arrives and the rescheduled
redraw task runs. -/
def redrawAfterAck : Window :=
  idle_redraw true (fun _ => true) (frame_callback redrawTwiceNoAck)

/-- C2: the redraw scheduler never issues a new commit for a surface whose
frame callback (presentation acknowledgment) is still outstanding, unless the
window-wide `redraw_needed` flag forces it: with the flag clear,
`surface_redraw` on such a surface returns 0 and changes nothing.  In the
concrete scenario request-redraw, commit, no acknowledgment, request-redraw
again, only one commit has been issued; after the acknowledgment the deferred
redraw commits, giving two. -/
theorem surface_redraw_throttles_awaiting_present
    (wrn acq : Bool) (s : Surface)
    (hcb : s.frame_cb = true) (hw : wrn = false) :
    surface_redraw wrn acq s = (s, 0, false) ∧
    redrawTwiceNoAck.commits = 1 ∧
    redrawTwiceNoAck.main.frame_cb = true ∧
    redrawAfterAck.commits = 2 := by
  refine ⟨?_, by decide, by decide, by decide⟩
  subst hw
  cases hrn : s.redraw_needed with
  | false => simp [surface_redraw, hrn]
  | true => simp [surface_redraw, hrn, hcb]

theorem surface_redraw_throttles_awaiting_present_witness :
    surface_redraw false true
        { redraw_needed := true, frame_cb := true, allocation := ⟨200, 200⟩ }
      = ({ redraw_needed := true, frame_cb := true, allocation := ⟨200, 200⟩ }, 0, false) ∧
    redrawTwiceNoAck.commits = 1 ∧
    redrawTwiceNoAck.main.frame_cb = true ∧
    redrawAfterAck.commits = 2 :=
  surface_redraw_throttles_awaiting_present false true
    { redraw_needed := true, frame_cb := true, allocation := ⟨200, 200⟩ } rfl rfl

theorem window_schedule_redraw_task_pending (w : Window) :
    (window_schedule_redraw_task w).pending_allocation = w.pending_allocation := by
  dsimp only [window_schedule_redraw_task]
  split_ifs <;> rfl

theorem window_do_resize_pending (w : Window) :
    (window_do_resize w).pending_allocation = w.pending_allocation := by
  dsimp only [window_do_resize, window_schedule_redraw, window_schedule_redraw_task]
  split_ifs <;> rfl

theorem window_do_resize_server (w : Window) :
    (window_do_resize w).server_allocation = w.server_allocation := by
  dsimp only [window_do_resize, window_schedule_redraw, window_schedule_redraw_task]
  split_ifs <;> rfl

theorem window_do_resize_frame_cb (w : Window) :
    (window_do_resize w).main.frame_cb = w.main.frame_cb := by
  dsimp only [window_do_resize, window_schedule_redraw, window_schedule_redraw_task]
  split_ifs <;> rfl

theorem window_do_resize_redraw_needed (w : Window) :
    (window_do_resize w).redraw_needed = w.redraw_needed := by
  dsimp only [window_do_resize, window_schedule_redraw, window_schedule_redraw_task]
  split_ifs <;> rfl

theorem undo_resize_pending (w : Window) :
    (undo_resize w).pending_allocation = w.server_allocation := by
  have h1 := window_do_resize_pending { w with pending_allocation := w.server_allocation }
  dsimp only [undo_resize]
  split_ifs <;> simpa using h1

theorem surface_redraw_forced_fail (s : Surface) :
    surface_redraw true false s = (s, -1, false) := by
  simp [surface_redraw]

theorem surface_redraw_forced_ok (s : Surface) :
    surface_redraw true true s =
      ({ s with redraw_needed := false, frame_cb := true }, 0, true) := by
  simp [surface_redraw]

/-- C3: during a resize-driven redraw (the resize pass is reached only when
the main surface has no acknowledgment outstanding), a drawable-acquisition
failure on the primary surface undoes the whole resize: `pending_allocation`
reverts exactly to the main surface's last server-acknowledged size, not to
the requested size; whereas if the primary surface acquires its drawable,
failures confined to sub-surfaces (any `acqs`) leave the resize in place,
with `pending_allocation` still the requested size. -/
theorem idle_resize_redraw_needed (w : Window) :
    (idle_resize w).redraw_needed = true := by
  dsimp only [idle_resize]
  rw [window_do_resize_redraw_needed]

theorem idle_redraw_body_fail_pending (acqs : Nat → Bool) (w2 : Window)
    (h1 : w2.redraw_needed = true) :
    (idle_redraw_body false acqs true w2).pending_allocation = w2.server_allocation := by
  have hs := surface_redraw_forced_fail w2.main
  dsimp only [idle_redraw_body]
  rw [h1, hs]
  simp only []
  norm_num
  exact undo_resize_pending _

theorem idle_redraw_body_ok_pending (acqs : Nat → Bool) (resized : Bool) (w2 : Window)
    (h1 : w2.redraw_needed = true) :
    (idle_redraw_body true acqs resized w2).pending_allocation = w2.pending_allocation := by
  have hs := surface_redraw_forced_ok w2.main
  dsimp only [idle_redraw_body]
  rw [h1, hs]
  norm_num

theorem idle_redraw_resize_rollback (w : Window) (acqs : Nat → Bool)
    (hr : w.resize_needed = true) (hcb : w.main.frame_cb = false) :
    (idle_redraw false acqs w).pending_allocation = w.server_allocation ∧
    (idle_redraw true acqs w).pending_allocation = w.pending_allocation := by
  have hg : ¬(w.resize_needed = true ∧ w.main.frame_cb = true) := by
    rw [hcb]
    rintro ⟨-, h⟩
    exact Bool.false_ne_true h
  have hrn : (idle_resize { w with redraw_task_scheduled := false }).redraw_needed = true :=
    idle_resize_redraw_needed _
  have hserver : (idle_resize { w with redraw_task_scheduled := false }).server_allocation
      = w.server_allocation := by
    dsimp only [idle_resize]
    rw [window_do_resize_server]
  have hpending : (idle_resize { w with redraw_task_scheduled := false }).pending_allocation
      = w.pending_allocation := by
    dsimp only [idle_resize]
    rw [window_do_resize_pending]
  rw [hr] at hrn hserver hpending
  constructor
  · dsimp only [idle_redraw]
    rw [if_neg hg, hr]
    simp only [if_true]
    rw [idle_redraw_body_fail_pending acqs _ hrn, hserver]
  · dsimp only [idle_redraw]
    rw [if_neg hg, hr]
    simp only [if_true]
    rw [idle_redraw_body_ok_pending acqs _ _ hrn, hpending]

/-- A window mid-resize: the user asked for 0x300 (invalid), the last
server-acknowledged size is 200x100. -/
def wResize : Window :=
  { main := { redraw_needed := true, frame_cb := false, allocation := ⟨200, 100⟩ },
    subs := [{ redraw_needed := true, frame_cb := false, allocation := ⟨50, 50⟩ }],
    redraw_needed := false, resize_needed := true, redraw_task_scheduled := true,
    pending_allocation := ⟨0, 300⟩, server_allocation := ⟨200, 100⟩,
    saved_allocation := ⟨200, 100⟩,
    fullscreen := false, maximized := false, commits := 0, fatal := false }

theorem idle_redraw_resize_rollback_witness :
    (idle_redraw false (fun _ => false) wResize).pending_allocation
        = wResize.server_allocation ∧
    (idle_redraw true (fun _ => false) wResize).pending_allocation
        = wResize.pending_allocation :=
  idle_redraw_resize_rollback wResize (fun _ => false) rfl rfl

/-! ## Data offer: `struct data_offer`, `data_offer_receive_data`,
`offer_io_func`, `data_offer_destroy` (window.c)

`OfferState` models one `struct data_offer` plus the scheduler registrations
it owns.  `refcount` is the C `int refcount`; `offerFd` is the single
`offer->fd` slot (a later `receive` overwrites it); `watched` is the set of
descriptors registered with `display_watch_fd` for this offer's `io_task`
(closing a descriptor removes it from the epoll set, which is how
`offer_io_func` deregisters); `frees` counts executions of the final
`free(offer)`; `sentReceive` records the `wl_data_offer_receive` requests
(MIME type and the write-end descriptor handed to the far side);
`delivered` records each `(bytes, byte_count)` handed to the consumer's
`data_func_t` sink. -/

structure OfferState where
  refcount : Int
  offerFd : Nat
  watched : List Nat
  frees : Nat
  sentReceive : List (String × Nat)
  delivered : List (List Nat × Nat)
deriving DecidableEq, Repr

/-- `data_offer_destroy` (window.c:3498-3511): decrement the refcount and
free the offer when it reaches zero. -/
def data_offer_destroy (o : OfferState) : OfferState :=
  let o1 : OfferState := { o with refcount := o.refcount - 1 }
  if o1.refcount = 0 then { o1 with frees := o1.frees + 1 } else o1

/-- `data_offer_receive_data` (window.c:3888-3908).  `pipeResult` is the
outcome of `pipe2(p, O_CLOEXEC)`: `none` on failure (return immediately with
no effect), `some (readEnd, writeEnd)` on success, after which the write end
is sent with `wl_data_offer_receive` and closed, `offer->fd` is set to the
read end, the refcount incremented and the read end registered with the task
scheduler for readability. -/
def data_offer_receive_data (pipeResult : Option (Nat × Nat)) (mime : String)
    (o : OfferState) : OfferState :=
  match pipeResult with
  | none => o
  | some (readEnd, writeEnd) =>
    { o with
      sentReceive := o.sentReceive ++ [(mime, writeEnd)],
      offerFd := readEnd,
      refcount := o.refcount + 1,
      watched := o.watched ++ [readEnd] }

/-- `offer_io_func` (window.c:3870-3886).  `avail` is the pipe content the
blocking-free `read` can return; the function reads at most one 4096-byte
chunk, delivers `(buffer, len)` to the consumer sink unconditionally, and on
a zero-length read closes `offer->fd` (which deregisters it from the epoll
set) and drops the stream's reference. -/
def offer_io_func (avail : List Nat) (o : OfferState) : OfferState :=
  let chunk := avail.take 4096
  let o1 : OfferState := { o with delivered := o.delivered ++ [(chunk, chunk.length)] }
  if chunk.length = 0 then
    data_offer_destroy { o1 with watched := o1.watched.erase o1.offerFd }
  else o1

/-- A freshly advertised offer: exactly one reference, held by the receiving
input device (`data_device_data_offer` sets `offer->refcount = 1`). -/
def offerFresh : OfferState :=
  { refcount := 1, offerFd := 0, watched := [], frees := 0,
    sentReceive := [], delivered := [] }

/-- Refined per-descriptor model of the same C code, for analysing
concurrent receives.  `struct data_offer` has a single `io_task`/`fd` slot:
every receive overwrites `offer->fd`, and every epoll dispatch of
`offer_io_func` reads `offer->fd` regardless of which registered descriptor
was reported ready.  `openFds` are the locally open read ends (a descriptor
absent from it has been closed); `watched` is the epoll registration set;
`sinkLens` records each `len` value handed to the consumer sink —
`read` on a closed descriptor returns -1, which the code keeps in an
`unsigned int len`, i.e. 4294967295. -/
structure OfferIO where
  refcount : Int
  offerFd : Nat
  watched : List Nat
  openFds : List Nat
  frees : Nat
  sinkLens : List Nat
deriving DecidableEq, Repr

/-- `data_offer_destroy` (window.c:3498-3511) on the per-descriptor model. -/
def offer_release (s : OfferIO) : OfferIO :=
  let s1 : OfferIO := { s with refcount := s.refcount - 1 }
  if s1.refcount = 0 then { s1 with frees := s1.frees + 1 } else s1

/-- The effects of a successful `data_offer_receive_data`
(window.c:3897-3907) on the per-descriptor model: the single `offer->fd`
slot is overwritten with the new pipe's read end, one reference is taken,
and the read end is registered with the scheduler. -/
def offer_receive_fd (readEnd : Nat) (s : OfferIO) : OfferIO :=
  { s with
    offerFd := readEnd,
    refcount := s.refcount + 1,
    openFds := s.openFds ++ [readEnd],
    watched := s.watched ++ [readEnd] }

/-- One epoll dispatch of `offer_io_func` (window.c:3870-3886) on the
per-descriptor model.  The C code reads `offer->fd` whichever descriptor was
reported ready.  If `offer->fd` is still open, `avail` is what `read`
returns ([] at end-of-stream): a zero-length read delivers len 0, closes the
descriptor (removing it from the epoll set) and releases one reference.  If
`offer->fd` has already been closed, `read` fails with -1, `unsigned int
len` becomes 4294967295, the `len == 0` test is false, and nothing is closed
or released — only the bogus length reaches the sink. -/
def offer_io_dispatch (avail : List Nat) (s : OfferIO) : OfferIO :=
  if s.offerFd ∈ s.openFds then
    let chunk := avail.take 4096
    let s1 : OfferIO := { s with sinkLens := s.sinkLens ++ [chunk.length] }
    if chunk.length = 0 then
      offer_release { s1 with
        openFds := s1.openFds.erase s1.offerFd,
        watched := s1.watched.erase s1.offerFd }
    else s1
  else { s with sinkLens := s.sinkLens ++ [4294967295] }

/-- A freshly advertised offer on the per-descriptor model: one reference,
held by the receiving input device. -/
def offerIOFresh : OfferIO :=
  { refcount := 1, offerFd := 0, watched := [], openFds := [], frees := 0,
    sinkLens := [] }

/-- C4 counterexample: the claimed two-concurrent-receive scenario.  After
`receive`(fd 6) and `receive`(fd 8), `offer->fd` is 8; both pipes reach
end-of-stream and every pending readiness event is serviced.  The first
dispatch reads fd 8, sees EOF and releases that stream's reference; every
further dispatch (fd 6 is still registered and ready) reads the now-closed
fd 8, gets (unsigned)-1 and releases nothing.  After the device drops its
own reference the refcount is stuck at 1 with zero frees: the first stream's
reference leaks, fd 6's registration dangles, and the offer is never
deallocated — refuting "completing both streams leaves the offer deallocated
exactly once, with no double-free and no leak". -/
theorem data_offer_two_receives_leak :
    (offer_receive_fd 8 (offer_receive_fd 6 offerIOFresh)).refcount = 3 ∧
    (offer_io_dispatch []
        (offer_receive_fd 8 (offer_receive_fd 6 offerIOFresh))).refcount = 2 ∧
    (offer_io_dispatch [] (offer_io_dispatch []
        (offer_receive_fd 8 (offer_receive_fd 6 offerIOFresh)))).refcount = 2 ∧
    (offer_release (offer_io_dispatch [] (offer_io_dispatch []
        (offer_receive_fd 8 (offer_receive_fd 6 offerIOFresh))))).refcount = 1 ∧
    (offer_release (offer_io_dispatch [] (offer_io_dispatch []
        (offer_receive_fd 8 (offer_receive_fd 6 offerIOFresh))))).frees = 0 ∧
    6 ∈ (offer_release (offer_io_dispatch [] (offer_io_dispatch []
        (offer_receive_fd 8 (offer_receive_fd 6 offerIOFresh))))).watched ∧
    (offer_io_dispatch [] (offer_io_dispatch []
        (offer_receive_fd 8 (offer_receive_fd 6 offerIOFresh)))).sinkLens
      = [0, 4294967295] := by
  decide

/-- C4 as amended: each successful `receive` takes exactly one reference and
a genuine zero-length terminal read (on the still-open `offer->fd`) releases
exactly one; with a single outstanding receive the lifecycle frees the offer
exactly once.  But the offer's single `fd`/`io_task` slot means only the
most recent stream can ever complete: once `offer->fd` is closed, every
further dispatch returns (unsigned)-1 and changes nothing, so in the
two-concurrent-receive scenario the earlier stream's reference is never
released and the offer leaks instead of being deallocated. -/
theorem data_offer_refcount_single_slot (s : OfferIO)
    (hopen : s.offerFd ∈ s.openFds) :
    (∀ (t : OfferIO) (fd : Nat), (offer_receive_fd fd t).refcount = t.refcount + 1) ∧
    (offer_io_dispatch [] s).refcount = s.refcount - 1 ∧
    (∀ (t : OfferIO) (avail : List Nat), t.offerFd ∉ t.openFds →
      (offer_io_dispatch avail t).refcount = t.refcount ∧
      (offer_io_dispatch avail t).frees = t.frees ∧
      (offer_io_dispatch avail t).watched = t.watched ∧
      (offer_io_dispatch avail t).openFds = t.openFds) ∧
    ((offer_release (offer_io_dispatch []
        (offer_receive_fd 6 offerIOFresh))).refcount = 0 ∧
     (offer_release (offer_io_dispatch []
        (offer_receive_fd 6 offerIOFresh))).frees = 1) ∧
    ((offer_release (offer_io_dispatch [] (offer_io_dispatch []
        (offer_receive_fd 8 (offer_receive_fd 6 offerIOFresh))))).refcount = 1 ∧
     (offer_release (offer_io_dispatch [] (offer_io_dispatch []
        (offer_receive_fd 8 (offer_receive_fd 6 offerIOFresh))))).frees = 0) := by
  refine ⟨fun t fd => rfl, ?_, ?_, by decide, by decide⟩
  · dsimp only [offer_io_dispatch]
    rw [if_pos hopen]
    rw [if_pos (by simp : ((([] : List Nat).take 4096).length = 0))]
    dsimp only [offer_release]
    split_ifs <;> rfl
  · intro t avail ht
    dsimp only [offer_io_dispatch]
    rw [if_neg ht]
    exact ⟨rfl, rfl, rfl, rfl⟩

theorem data_offer_refcount_single_slot_witness :
    (∀ (t : OfferIO) (fd : Nat), (offer_receive_fd fd t).refcount = t.refcount + 1) ∧
    (offer_io_dispatch [] (offer_receive_fd 6 offerIOFresh)).refcount
      = (offer_receive_fd 6 offerIOFresh).refcount - 1 :=
  ⟨(data_offer_refcount_single_slot (offer_receive_fd 6 offerIOFresh) (by decide)).1,
   (data_offer_refcount_single_slot (offer_receive_fd 6 offerIOFresh) (by decide)).2.1⟩

/-- C6: on every readability notification, `offer_io_func` reads at most one
4096-byte chunk and hands exactly `(chunk, chunk length)` to the consumer's
sink.  A zero-length read (end-of-stream) closes the descriptor — removing
its registration from the task scheduler's epoll set — and releases the
stream's reference, freeing the offer exactly when the refcount reaches
zero; a non-empty read keeps the reference and the registration. -/
theorem offer_io_func_chunk_and_eof (avail : List Nat) (o : OfferState) :
    ((offer_io_func avail o).delivered
        = o.delivered ++ [(avail.take 4096, (avail.take 4096).length)]) ∧
    (avail.take 4096).length ≤ 4096 ∧
    (avail.length = 0 →
      (offer_io_func avail o).watched = o.watched.erase o.offerFd ∧
      (offer_io_func avail o).refcount = o.refcount - 1 ∧
      ((offer_io_func avail o).frees
          = o.frees + (if o.refcount - 1 = 0 then 1 else 0))) ∧
    (avail ≠ [] →
      (offer_io_func avail o).refcount = o.refcount ∧
      (offer_io_func avail o).watched = o.watched ∧
      (offer_io_func avail o).frees = o.frees) := by
  refine ⟨?_, by simp, ?_, ?_⟩
  · dsimp only [offer_io_func, data_offer_destroy]
    split_ifs <;> rfl
  · intro hl
    have hnil : avail = [] := List.length_eq_zero.mp hl
    subst hnil
    refine ⟨?_, ?_, ?_⟩ <;>
      dsimp only [offer_io_func, data_offer_destroy] <;>
      split_ifs <;> simp_all
  · intro hne
    have hlen : ¬((avail.take 4096).length = 0) := by
      simp only [List.length_take]
      intro h
      rcases Nat.min_eq_zero_iff.mp h with h4 | h0
      · omega
      · exact hne (List.length_eq_zero.mp h0)
    dsimp only [offer_io_func]
    rw [if_neg hlen]
    exact ⟨rfl, rfl, rfl⟩

theorem offer_io_func_chunk_and_eof_witness :
    (offer_io_func [] offerFresh).watched = offerFresh.watched.erase offerFresh.offerFd ∧
    (offer_io_func [] offerFresh).refcount = offerFresh.refcount - 1 ∧
    ((offer_io_func [] offerFresh).frees
        = offerFresh.frees + (if offerFresh.refcount - 1 = 0 then 1 else 0)) ∧
    (offer_io_func [42] offerFresh).refcount = offerFresh.refcount :=
  ⟨((offer_io_func_chunk_and_eof [] offerFresh).2.2.1 rfl).1,
   ((offer_io_func_chunk_and_eof [] offerFresh).2.2.1 rfl).2.1,
   ((offer_io_func_chunk_and_eof [] offerFresh).2.2.1 rfl).2.2,
   ((offer_io_func_chunk_and_eof [42] offerFresh).2.2.2 (by decide)).1⟩


/-- C8: if `pipe2` fails, `data_offer_receive_data` returns before touching
anything: no reference is taken, no descriptor is registered with the
scheduler, nothing is sent to the far side, and the state is exactly as
before — the failure is silent and local. -/
theorem data_offer_receive_pipe_failure_no_effect (mime : String) (o : OfferState) :
    data_offer_receive_data none mime o = o ∧
    (data_offer_receive_data none mime o).refcount = o.refcount ∧
    (data_offer_receive_data none mime o).watched = o.watched ∧
    (data_offer_receive_data none mime o).sentReceive = o.sentReceive :=
  ⟨rfl, rfl, rfl, rfl⟩

/-! ## Primary selection: `weston_seat_set_primary_selection` and friends

The repository ships two variants of this code: `src/src/primary-selection.c`
and `src/unnamed/part_000`.  Both are embedded.  `Client` stands for a
`wl_client` connection; a `DataSource` records the connection owning its
resource (`wl_resource_get_client(source->resource)`); a `DeviceRes` is one
entry of `seat->primary_selection_device_resource_list`.  Outputs are the
protocol/side effects in emission order: the `cancel` hook, a
`selection_changed` event on a device resource, and the seat's
`primary_selection_signal`.  `listener_on` models which live source
`seat->primary_data_source_listener` is currently registered on.  Calls that
dereference NULL in C return `none`. -/

abbrev Client := Nat

structure DataSource where
  owner : Client
  srcId : Nat
deriving DecidableEq, Repr

structure DeviceRes where
  client : Client
  devId : Nat
deriving DecidableEq, Repr

inductive SelMsg where
  | cancelled (s : DataSource)
  | selectionChanged (d : DeviceRes)
  | selectionSignal
deriving DecidableEq, Repr

structure Seat where
  primary_selection_data_source : Option DataSource
  listener_on : Option DataSource
  devices : List DeviceRes
  pointer_focus_client : Option Client
deriving DecidableEq, Repr

/-- `wl_resource_find_for_client` over the seat's primary-selection device
resource list: the first entry belonging to the given connection. -/
def find_for_client (l : List DeviceRes) (c : Client) : Option DeviceRes :=
  l.find? (fun d => d.client == c)

/-- `weston_seat_set_primary_selection` (src/src/primary-selection.c:44-65):
cancel the active source if any and unregister the destruction listener, then
install the new source and register a fresh listener on it.  This variant
sends no notification to any device. -/
def weston_seat_set_primary_selection (seat : Seat) (source : Option DataSource) :
    Seat × List SelMsg :=
  match seat.primary_selection_data_source with
  | none =>
    ({ seat with
        primary_selection_data_source := source,
        listener_on := match source with
          | some s => some s
          | none => seat.listener_on }, [])
  | some cur =>
    ({ seat with
        primary_selection_data_source := source,
        listener_on := match source with
          | some s => some s
          | none => none },
     [SelMsg.cancelled cur])

/-- `weston_seat_set_primary_selection` (src/unnamed/part_000:42-74): as
above, but when a source was active it additionally looks up the previous
owner's device resource and, if the previous owner's connection differs from
the new owner's, sends `selection_changed` to that one resource.  Reading
`source->resource` while `source` is NULL, or sending on a NULL resource,
dereferences NULL: those paths return `none`. -/
def weston_seat_set_primary_selection_p000 (seat : Seat)
    (source : Option DataSource) : Option (Seat × List SelMsg) :=
  match seat.primary_selection_data_source with
  | none =>
    some ({ seat with
        primary_selection_data_source := source,
        listener_on := match source with
          | some s => some s
          | none => seat.listener_on }, [])
  | some cur =>
    match source with
    | none => none
    | some src =>
      let res := find_for_client seat.devices cur.owner
      let seat2 : Seat := { seat with
        primary_selection_data_source := some src,
        listener_on := some src }
      if cur.owner ≠ src.owner then
        match res with
        | none => none
        | some r => some (seat2, [SelMsg.cancelled cur, SelMsg.selectionChanged r])
      else
        some (seat2, [SelMsg.cancelled cur])

/-- `weston_primary_selection_device_set_selection`
(src/src/primary-selection.c:67-79; the part_000 wrapper at 76-88 is
identical): the guard reads `seat->pointer_state->focus_client->client`.
`pointer_focus_client` is the client of the seat's `focus_client`, or `none`
when no client holds pointer focus — in which case the guard dereferences
NULL and crashes (`none`) instead of rejecting; otherwise a caller other
than the focus client is rejected outright with no state change. -/
def weston_primary_selection_device_set_selection (seat : Seat)
    (client : Client) (source : Option DataSource) : Option (Seat × List SelMsg) :=
  match seat.pointer_focus_client with
  | none => none
  | some fc =>
    if fc ≠ client then some (seat, [])
    else some (weston_seat_set_primary_selection seat source)

/-- `destroy_primary_selection_data_source`
(src/src/primary-selection.c:34-42, identical in part_000:32-40): the
destruction listener's hook; clears the seat's source pointer and emits the
seat's `primary_selection_signal`.  The listener registration dies with the
destroyed source's signal list, so no live registration remains. -/
def destroy_primary_selection_data_source (seat : Seat) : Seat × List SelMsg :=
  ({ seat with
      primary_selection_data_source := none,
      listener_on := none },
   [SelMsg.selectionSignal])

/-- C7 as amended: when some client holds the seat's pointer focus and the
caller is a different client, the request is rejected with no state change —
current source, cancellation status, listener registration and device list
untouched, and no message emitted; but when no client holds pointer focus,
the guard crashes on a NULL dereference rather than cleanly rejecting the
(necessarily unfocused) caller. -/
theorem set_selection_requires_pointer_focus (seat : Seat) (client fc : Client)
    (source : Option DataSource)
    (hfc : seat.pointer_focus_client = some fc)
    (h : fc ≠ client) :
    weston_primary_selection_device_set_selection seat client source
      = some (seat, []) ∧
    (∀ s : Seat, s.pointer_focus_client = none →
      weston_primary_selection_device_set_selection s client source = none) := by
  constructor
  · dsimp only [weston_primary_selection_device_set_selection]
    rw [hfc]
    dsimp only
    rw [if_pos h]
  · intro s hs
    dsimp only [weston_primary_selection_device_set_selection]
    rw [hs]

/-- A three-client scene: client 0 owns the current selection, client 1 is
installing a new one, client 2 is a bystander; each has one device. -/
def devA : DeviceRes := ⟨0, 100⟩
def devB : DeviceRes := ⟨1, 101⟩
def devC : DeviceRes := ⟨2, 102⟩
def curSrc : DataSource := ⟨0, 10⟩
def newSrc : DataSource := ⟨1, 11⟩
def seat3 : Seat :=
  { primary_selection_data_source := some curSrc,
    listener_on := some curSrc,
    devices := [devA, devB, devC],
    pointer_focus_client := some 1 }

/-- A seat in the same scene but with no pointer-focus client. -/
def seatNoFocus : Seat :=
  { primary_selection_data_source := some curSrc,
    listener_on := some curSrc,
    devices := [devA, devB, devC],
    pointer_focus_client := none }

/-- C7 counterexample: with no client holding pointer focus (an everyday
reachable state), an unfocused caller is not cleanly rejected: the guard
`seat->pointer_state->focus_client->client` dereferences NULL (modelled
`none`) instead of returning with the state unchanged. -/
theorem set_selection_no_focus_crash :
    weston_primary_selection_device_set_selection seatNoFocus 2 (some newSrc) = none ∧
    weston_primary_selection_device_set_selection seatNoFocus 2 (some newSrc)
      ≠ some (seatNoFocus, []) := by
  decide

theorem set_selection_requires_pointer_focus_witness :
    weston_primary_selection_device_set_selection seat3 2 (some newSrc)
      = some (seat3, []) ∧
    (∀ s : Seat, s.pointer_focus_client = none →
      weston_primary_selection_device_set_selection s 2 (some newSrc) = none) :=
  set_selection_requires_pointer_focus seat3 2 1 (some newSrc) rfl (by decide)

/-- C9: the destruction hook fired by the active source's teardown clears the
seat's current source to none, leaves no listener registration behind, and
emits the selection-cleared signal exactly once, touching nothing else. -/
theorem destroy_source_clears_selection_once (seat : Seat) :
    (destroy_primary_selection_data_source seat).1.primary_selection_data_source = none ∧
    (destroy_primary_selection_data_source seat).1.listener_on = none ∧
    (destroy_primary_selection_data_source seat).2 = [SelMsg.selectionSignal] ∧
    ((destroy_primary_selection_data_source seat).2.count SelMsg.selectionSignal = 1) ∧
    (destroy_primary_selection_data_source seat).1.devices = seat.devices ∧
    (destroy_primary_selection_data_source seat).1.pointer_focus_client
        = seat.pointer_focus_client :=
  ⟨rfl, rfl, rfl, rfl, rfl, rfl⟩

/-- C5 counterexample: with the bystander client 2 holding a device on the
same channel, replacing client 0's selection by client 1's notifies only
client 0's device — the claim that every other peer device (here also
client 2's) is told is false on `part_000`'s code. -/
theorem set_primary_selection_not_notify_all_peers :
    devC ∈ seat3.devices ∧
    devC.client ≠ newSrc.owner ∧
    weston_seat_set_primary_selection_p000 seat3 (some newSrc)
      = some ({ seat3 with
          primary_selection_data_source := some newSrc,
          listener_on := some newSrc },
        [SelMsg.cancelled curSrc, SelMsg.selectionChanged devA]) ∧
    ∀ out, weston_seat_set_primary_selection_p000 seat3 (some newSrc) = some out →
      SelMsg.selectionChanged devC ∉ out.2 := by
  refine ⟨by decide, by decide, by decide, ?_⟩
  intro out hout
  have hc : weston_seat_set_primary_selection_p000 seat3 (some newSrc)
      = some ({ seat3 with
          primary_selection_data_source := some newSrc,
          listener_on := some newSrc },
        [SelMsg.cancelled curSrc, SelMsg.selectionChanged devA]) := by decide
  rw [hc] at hout
  have hx := Option.some.inj hout
  subst hx
  decide

/-- C5 as amended: `set_source` on a channel with an active source cancels it
exactly once and moves the destruction listener from the old source to the
new one; and when the previous owner's connection differs from the new
owner's, exactly one `selection_changed` notification is sent, to the
previous owner's device resource — no other peer is notified. -/
theorem set_primary_selection_cancel_once_notify_prev_owner (seat : Seat)
    (cur src : DataSource) (r : DeviceRes)
    (hcur : seat.primary_selection_data_source = some cur)
    (hfind : find_for_client seat.devices cur.owner = some r) :
    ∃ seat2 msgs,
      weston_seat_set_primary_selection_p000 seat (some src) = some (seat2, msgs) ∧
      msgs.count (SelMsg.cancelled cur) = 1 ∧
      seat2.primary_selection_data_source = some src ∧
      seat2.listener_on = some src ∧
      msgs = SelMsg.cancelled cur ::
        (if cur.owner ≠ src.owner then [SelMsg.selectionChanged r] else []) ∧
      (∀ d : DeviceRes, SelMsg.selectionChanged d ∈ msgs → d = r) := by
  refine ⟨{ seat with
      primary_selection_data_source := some src,
      listener_on := some src },
    SelMsg.cancelled cur ::
      (if cur.owner ≠ src.owner then [SelMsg.selectionChanged r] else []), ?_, ?_, rfl, rfl, rfl, ?_⟩
  · dsimp only [weston_seat_set_primary_selection_p000]
    rw [hcur]
    dsimp only
    rw [hfind]
    split_ifs with hown <;> rfl
  · split_ifs <;> simp [List.count_cons]
  · intro d hd
    by_cases hown : cur.owner ≠ src.owner
    · rw [if_pos hown] at hd
      simp only [List.mem_cons, List.mem_singleton, List.not_mem_nil, or_false] at hd
      rcases hd with h1 | h1
      · exact absurd h1 (by simp)
      · exact SelMsg.selectionChanged.inj h1
    · rw [if_neg hown] at hd
      simp at hd

theorem set_primary_selection_cancel_once_notify_prev_owner_witness :
    ∃ seat2 msgs,
      weston_seat_set_primary_selection_p000 seat3 (some newSrc) = some (seat2, msgs) ∧
      msgs.count (SelMsg.cancelled curSrc) = 1 ∧
      seat2.primary_selection_data_source = some newSrc ∧
      seat2.listener_on = some newSrc ∧
      msgs = SelMsg.cancelled curSrc ::
        (if curSrc.owner ≠ newSrc.owner then [SelMsg.selectionChanged devA] else []) ∧
      (∀ d : DeviceRes, SelMsg.selectionChanged d ∈ msgs → d = devA) :=
  set_primary_selection_cancel_once_notify_prev_owner seat3 curSrc newSrc devA
    rfl (by decide)

/-- C10 counterexample: on the same seat and new source, the two shipped
implementations emit different event sequences — `primary-selection.c` emits
only the cancellation, `part_000` additionally sends `selection_changed` to
the previous owner's device — so they are not observationally equivalent. -/
theorem set_primary_selection_variants_not_equivalent :
    (weston_seat_set_primary_selection_p000 seat3 (some newSrc)).map Prod.snd
      ≠ some (weston_seat_set_primary_selection seat3 (some newSrc)).2 ∧
    (weston_seat_set_primary_selection seat3 (some newSrc)).2
      = [SelMsg.cancelled curSrc] ∧
    (weston_seat_set_primary_selection_p000 seat3 (some newSrc)).map Prod.snd
      = some [SelMsg.cancelled curSrc, SelMsg.selectionChanged devA] := by
  refine ⟨?_, by decide, by decide⟩
  decide

/-- C10 as amended: the two implementations are not observationally
equivalent.  When the new source is non-null and the previous owner either
matches the new owner or still has a device resource registered, they agree
on the entire final seat state — same current source, same listener
registration, same cancellation — and differ only in that `part_000` appends
`selection_changed` notifications (with no active source both emit nothing).
Outside that region they diverge beyond notifications: with an active source
and a NULL new source, `primary-selection.c` cleanly cancels and clears the
selection while `part_000` dereferences `source->resource` and crashes; and
when the owners differ but the previous owner has no device resource,
`part_000` sends `selection_changed` on a NULL resource and crashes. -/
theorem set_primary_selection_variants_agree_up_to_notification (seat : Seat)
    (src : DataSource)
    (h : ∀ cur, seat.primary_selection_data_source = some cur →
      cur.owner = src.owner ∨ (find_for_client seat.devices cur.owner).isSome) :
    (∃ msgs2,
      weston_seat_set_primary_selection_p000 seat (some src)
        = some ((weston_seat_set_primary_selection seat (some src)).1, msgs2) ∧
      ∃ extra,
        msgs2 = (weston_seat_set_primary_selection seat (some src)).2 ++ extra ∧
        ∀ m ∈ extra, ∃ d : DeviceRes, m = SelMsg.selectionChanged d) ∧
    (∀ cur, seat.primary_selection_data_source = some cur →
      weston_seat_set_primary_selection_p000 seat none = none ∧
      weston_seat_set_primary_selection seat none
        = ({ seat with
            primary_selection_data_source := none,
            listener_on := none }, [SelMsg.cancelled cur])) ∧
    (∀ cur, seat.primary_selection_data_source = some cur →
      cur.owner ≠ src.owner →
      find_for_client seat.devices cur.owner = none →
      weston_seat_set_primary_selection_p000 seat (some src) = none) := by
  refine ⟨?_, ?_, ?_⟩
  · rcases hcur : seat.primary_selection_data_source with _ | cur
    · refine ⟨[], ?_, [], by simp [weston_seat_set_primary_selection, hcur], by simp⟩
      dsimp only [weston_seat_set_primary_selection_p000, weston_seat_set_primary_selection]
      rw [hcur]
    · rcases h cur hcur with hown | hsome
      · refine ⟨[SelMsg.cancelled cur], ?_, [], ?_, by simp⟩
        · dsimp only [weston_seat_set_primary_selection_p000,
            weston_seat_set_primary_selection]
          rw [hcur]
          dsimp only
          rw [if_neg (by simp [hown])]
        · simp [weston_seat_set_primary_selection, hcur]
      · rcases Option.isSome_iff_exists.mp hsome with ⟨r, hr⟩
        by_cases hown : cur.owner = src.owner
        · refine ⟨[SelMsg.cancelled cur], ?_, [], ?_, by simp⟩
          · dsimp only [weston_seat_set_primary_selection_p000,
              weston_seat_set_primary_selection]
            rw [hcur]
            dsimp only
            rw [if_neg (by simp [hown])]
          · simp [weston_seat_set_primary_selection, hcur]
        · refine ⟨[SelMsg.cancelled cur, SelMsg.selectionChanged r], ?_,
            [SelMsg.selectionChanged r], ?_, ?_⟩
          · dsimp only [weston_seat_set_primary_selection_p000,
              weston_seat_set_primary_selection]
            rw [hcur]
            dsimp only
            rw [if_pos hown, hr]
          · simp [weston_seat_set_primary_selection, hcur]
          · intro m hm
            simp only [List.mem_singleton] at hm
            exact ⟨r, hm⟩
  · intro cur hcur
    constructor
    · dsimp only [weston_seat_set_primary_selection_p000]
      rw [hcur]
    · simp [weston_seat_set_primary_selection, hcur]
  · intro cur hcur hne hfind
    dsimp only [weston_seat_set_primary_selection_p000]
    rw [hcur]
    dsimp only
    rw [if_pos hne, hfind]

theorem set_primary_selection_variants_agree_up_to_notification_witness :
    (∃ msgs2,
      weston_seat_set_primary_selection_p000 seat3 (some newSrc)
        = some ((weston_seat_set_primary_selection seat3 (some newSrc)).1, msgs2) ∧
      ∃ extra,
        msgs2 = (weston_seat_set_primary_selection seat3 (some newSrc)).2 ++ extra ∧
        ∀ m ∈ extra, ∃ d : DeviceRes, m = SelMsg.selectionChanged d) ∧
    weston_seat_set_primary_selection_p000 seat3 none = none := by
  have h : ∀ cur, seat3.primary_selection_data_source = some cur →
      cur.owner = newSrc.owner ∨ (find_for_client seat3.devices cur.owner).isSome := by
    intro cur hcur
    right
    have hc : curSrc = cur := Option.some.inj (show some curSrc = some cur from hcur)
    rw [← hc]
    decide
  exact ⟨(set_primary_selection_variants_agree_up_to_notification seat3 newSrc h).1,
    ((set_primary_selection_variants_agree_up_to_notification seat3 newSrc h).2.1
      curSrc rfl).1⟩

end Weston
